import Mathlib

/-!
Verification of the job-ticket generation, circuit-breaker, handler
orchestration, asset extraction, sanitization and thumbnail-cache logic of
the PersonalEffect-CustomizableXMPieBrochure server (src/server.js and
src/thumbnailCache.js), as a shallow embedding in Lean 4.

JavaScript runtime values appearing in form data are modelled by the
JsonVal type together with JS truthiness and template-literal
stringification.  Fallible code is modelled with Except / Option, the
ambient clock (Date.now) is passed explicitly as a Nat, and the remote
uProduce API is modelled as oracles (Except-valued arguments) consumed by
the route handlers.
-/

namespace XMPieBrochure

/-- A JSON / JavaScript value as it can occur in a parsed request body or
in a products.json variable default. -/
inductive JsonVal where
  | jstr (s : String)
  | jnum (n : Int)
  | jbool (b : Bool)
  | jnull
deriving DecidableEq, Repr

/-- JavaScript truthiness of a JsonVal (empty string, 0, false and null
are falsy). -/
def jsTruthy : JsonVal → Bool
  | .jstr s => s != ""
  | .jnum n => n != 0
  | .jbool b => b
  | .jnull => false

/-- JavaScript template-literal stringification of a JsonVal. -/
def jsToString : JsonVal → String
  | .jstr s => s
  | .jnum n => toString n
  | .jbool b => if b then "true" else "false"
  | .jnull => "null"

/-- Stringification of a possibly-undefined JavaScript value, as a
template literal would render it. -/
def jsToStringOpt : Option JsonVal → String
  | none => "undefined"
  | some v => jsToString v

/-- Truthiness of a possibly-undefined JavaScript value. -/
def optJsTruthy : Option JsonVal → Bool
  | none => false
  | some v => jsTruthy v

/-- Truthiness of a possibly-absent string property (absent and empty
string are falsy). -/
def optTruthy : Option String → Bool
  | none => false
  | some s => s != ""

/-- A JavaScript object holding form fields: an association list from
field name to value (keys unique, as produced by JSON parsing). -/
abbrev FormData := List (String × JsonVal)

/-- Property read on a form-data object; none models undefined. -/
def fdLookup (fd : FormData) (k : String) : Option JsonVal :=
  List.lookup k fd

/-- Property assignment on a form-data object (overwrites an existing
key, appends otherwise). -/
def fdSet : FormData → String → JsonVal → FormData
  | [], k, v => [(k, v)]
  | (k0, v0) :: rest, k, v =>
    if k0 = k then (k, v) :: rest else (k0, v0) :: fdSet rest k v

/-- One size option of a product in products.json (src/server.js reads
sizeConfig.documentId after matching sizeConfig.name). -/
structure SizeOption where
  name : String
  documentId : Int
deriving DecidableEq, Repr

/-- One customizable variable of a product in products.json. -/
structure ProductVariable where
  name : String
  planObjectName : Option String
  planObjectType : Option String
  defaultValue : Option JsonVal
deriving DecidableEq, Repr

/-- A catalog product from products.json, with the fields src/server.js
reads.  The source field named variables is called variableDefs here
because variables is a reserved word in Lean. -/
structure Product where
  id : String
  campaignId : Int
  planId : Int
  sizes : List SizeOption
  variableDefs : List ProductVariable
  thumbnail : Option String
deriving DecidableEq, Repr

/-- The loaded products configuration. -/
abbrev Catalog := List Product

/-- getProductById from src/server.js: find the catalog product with the
given id. -/
def getProductById (catalog : Catalog) (productId : String) : Option Product :=
  catalog.find? (fun p => p.id == productId)

/-- Product lookup as generateJobTicket performs it on formData.productId,
which may be any JavaScript value: strict equality against the (string)
product id. -/
def findProductByVal (catalog : Catalog) (v : Option JsonVal) : Option Product :=
  catalog.find? (fun p => v == some (JsonVal.jstr p.id))

/-- Size lookup from generateJobTicket: product.sizes.find comparing
s.name against formData.pageSize with strict equality. -/
def findSizeConfig (product : Product) (fd : FormData) : Option SizeOption :=
  product.sizes.find? (fun s => some (JsonVal.jstr s.name) == fdLookup fd "pageSize")

/-- Suffix test modelling the JavaScript String.endsWith calls, written
on character lists so that it evaluates inside the kernel. -/
def strEndsWith (s suffix : String) : Bool :=
  suffix.data.isSuffixOf s.data

/-- Whitespace trimming from both ends of a character list, modelling
String.trim. -/
def trimChars (cs : List Char) : List Char :=
  ((cs.dropWhile Char.isWhitespace).reverse.dropWhile Char.isWhitespace).reverse

/-- Lower-casing modelling String.toLowerCase, written on the character
list so that it evaluates inside the kernel. -/
def strToLower (s : String) : String :=
  String.mk (s.data.map Char.toLower)

/-- Containment of one character list in another. -/
def charsContainSub (cs sub : List Char) : Bool :=
  match cs with
  | [] => sub.isEmpty
  | _ :: rest => sub.isPrefixOf cs || charsContainSub rest sub

/-- Substring containment modelling JavaScript String.includes. -/
def containsSubstr (s sub : String) : Bool :=
  charsContainSub s.data sub.data

/-- Splits the leading run of ASCII digits off a character list. -/
def spanDigits (cs : List Char) : List Char × List Char :=
  (cs.takeWhile Char.isDigit, cs.dropWhile Char.isDigit)

/-- The regular expression test from generateJobTicket matching exactly
one-or-two digits, slash, one-or-two digits, slash, four digits. -/
def matchesDateRegex (s : String) : Bool :=
  let p1 := spanDigits s.data
  (p1.1.length == 1 || p1.1.length == 2) &&
    (match p1.2 with
     | '/' :: r2 =>
       let p2 := spanDigits r2
       (p2.1.length == 1 || p2.1.length == 2) &&
         (match p2.2 with
          | '/' :: r4 =>
            let p3 := spanDigits r4
            p3.1.length == 4 && p3.2.isEmpty
          | _ => false)
     | _ => false)

/-- The check variable.name.toLowerCase().includes of the string date in
generateJobTicket. -/
def isDateName (name : String) : Bool :=
  containsSubstr (strToLower name) "date"

/-- Value resolution in generateJobTicket: the submitted value when the
property is defined, otherwise the variable default (itself possibly
undefined). -/
def resolveValue (fd : FormData) (v : ProductVariable) : Option JsonVal :=
  match fdLookup fd v.name with
  | some x => some x
  | none => v.defaultValue

/-- The isDateField test in generateJobTicket: the variable name contains
the substring date, or the value is truthy and matches the date regular
expression. -/
def isDateField (v : ProductVariable) (value : Option JsonVal) : Bool :=
  isDateName v.name || (optJsTruthy value && matchesDateRegex (jsToStringOpt value))

/-- The coercion used by the quoted branch of generateJobTicket: the
stringified value when truthy, otherwise the empty string. -/
def valueOrEmpty (value : Option JsonVal) : String :=
  match value with
  | some v => if jsTruthy v then jsToString v else ""
  | none => ""

/-- Expression formatting in generateJobTicket: hash-delimited for a
truthy date-classified value, double-quoted (raw, unescaped) otherwise. -/
def buildExpression (v : ProductVariable) (value : Option JsonVal) : String :=
  if isDateField v value && optJsTruthy value then
    "#" ++ jsToStringOpt value ++ "#"
  else
    "\"" ++ valueOrEmpty value ++ "\""

/-- One customization entry of the job ticket. -/
structure Customization where
  PlanObjectName : String
  PlanObjectType : String
  PlanObjectExpression : String
deriving DecidableEq, Repr

/-- The customization-building forEach loop of generateJobTicket: for each
variable with truthy plan-object name and type, push one customization. -/
def mkCustomizations (fd : FormData) (vars : List ProductVariable) : List Customization :=
  vars.foldl
    (fun acc v =>
      if optTruthy v.planObjectName && optTruthy v.planObjectType then
        acc ++ [{ PlanObjectName := v.planObjectName.getD ""
                  PlanObjectType := v.planObjectType.getD ""
                  PlanObjectExpression := buildExpression v (resolveValue fd v) }]
      else acc)
    []

/-- One recipients data source entry of the job ticket. -/
structure DataSource where
  id : Option Int
  filterType : String
  filter : String
deriving DecidableEq, Repr

/-- The Output block of the job ticket (union of the Proof and Print
variants of src/server.js; fields absent in a variant are none). -/
structure OutputConfig where
  Format : String
  FileNameAutomatic : Bool
  BleedUseDocumentDefinition : Bool
  BleedTop : Option Nat
  BleedBottom : Option Nat
  BleedLeftOrInside : Option Nat
  BleedRightOrOutside : Option Nat
  Resolution : Option Nat
  PdfSettings : Option String
  PdfCompatibilityLevel : Option String
  PdfStandardsCompliance : Option String
  FlatteningHandlerType : Option String
  MissingFonts : String
  MissingAssets : String
  MissingStyles : String
  TextOverflow : String
  FileSizeLimitReached : String
deriving DecidableEq, Repr

/-- The Output block generateJobTicket attaches for a Proof job. -/
def proofOutput : OutputConfig where
  Format := "JPG"
  FileNameAutomatic := true
  BleedUseDocumentDefinition := false
  BleedTop := some 0
  BleedBottom := some 0
  BleedLeftOrInside := some 0
  BleedRightOrOutside := some 0
  Resolution := some 150
  PdfSettings := none
  PdfCompatibilityLevel := none
  PdfStandardsCompliance := none
  FlatteningHandlerType := none
  MissingFonts := "Ignore"
  MissingAssets := "Ignore"
  MissingStyles := "Ignore"
  TextOverflow := "Ignore"
  FileSizeLimitReached := "FailJob"

/-- The Output block generateJobTicket attaches for a non-Proof (Print)
job. -/
def printOutput : OutputConfig where
  Format := "PDF"
  FileNameAutomatic := true
  BleedUseDocumentDefinition := true
  BleedTop := none
  BleedBottom := none
  BleedLeftOrInside := none
  BleedRightOrOutside := none
  Resolution := none
  PdfSettings := some "XMPiEQualityHigh"
  PdfCompatibilityLevel := some "PdfVersion16"
  PdfStandardsCompliance := some "PDFX42010"
  FlatteningHandlerType := some "UseXDot"
  MissingFonts := "Ignore"
  MissingAssets := "Ignore"
  MissingStyles := "Ignore"
  TextOverflow := "Ignore"
  FileSizeLimitReached := "FailJob"

/-- The job ticket built by generateJobTicket, with the nested object
structure flattened into one record (field names keep the source's
nesting order). -/
structure JobTicket where
  JobType : String
  JobPriority : Option String
  CampaignId : Int
  RangeAll : Bool
  RangeFrom : Nat
  RangeTo : Nat
  RecipientsDataSources : List DataSource
  UseCampaignAssetSources : Bool
  Media : String
  PlanId : Int
  Customizations : List Customization
  DocumentId : Int
  UseCampaignFonts : Bool
  Output : OutputConfig
deriving DecidableEq, Repr

/-- The two errors generateJobTicket can throw. -/
inductive TicketError where
  | productNotFound (productId : String)
  | sizeNotFound (pageSize : String)
deriving DecidableEq, Repr

/-- generateJobTicket from src/server.js: look up the product and size,
build the customizations, and assemble the ticket for the given job
type. -/
def generateJobTicket (catalog : Catalog) (formData : FormData) (jobType : String) :
    Except TicketError JobTicket :=
  match findProductByVal catalog (fdLookup formData "productId") with
  | none => .error (.productNotFound (jsToStringOpt (fdLookup formData "productId")))
  | some product =>
    match findSizeConfig product formData with
    | none => .error (.sizeNotFound (jsToStringOpt (fdLookup formData "pageSize")))
    | some sizeConfig =>
      .ok
        { JobType := jobType
          JobPriority := if jobType == "Proof" then some "Immediately" else none
          CampaignId := product.campaignId
          RangeAll := false
          RangeFrom := 1
          RangeTo := 1
          RecipientsDataSources :=
            if jobType == "Proof" then
              [{ id := none, filterType := "NoDataSource", filter := "Dummy Data" }]
            else
              [{ id := some 14485, filterType := "TableName", filter := "RecipientList" }]
          UseCampaignAssetSources := true
          Media := "Print"
          PlanId := product.planId
          Customizations := mkCustomizations formData product.variableDefs
          DocumentId := sizeConfig.documentId
          UseCampaignFonts := true
          Output := if jobType == "Proof" then proofOutput else printOutput }

/-- generateJobTicket with the ambient clock made explicit: the source
runs in a process where Date.now is available, but the ticket-building
code never reads it, so the clock parameter is unused.  This makes the
absence of any timestamp or nonce in the ticket provable as clock
independence. -/
def generateJobTicketAt (_now : Nat) (catalog : Catalog) (formData : FormData)
    (jobType : String) : Except TicketError JobTicket :=
  generateJobTicket catalog formData jobType

/-- The three circuit-breaker modes of src/server.js. -/
inductive BreakerMode where
  | CLOSED
  | OPEN
  | HALF_OPEN
deriving DecidableEq, Repr

/-- The circuitBreaker object state of src/server.js. -/
structure CircuitBreaker where
  state : BreakerMode
  failureCount : Nat
  lastFailureTime : Nat
deriving DecidableEq, Repr

/-- failureThreshold field of the circuitBreaker object. -/
def failureThreshold : Nat := 5

/-- resetTimeout field of the circuitBreaker object, in milliseconds. -/
def resetTimeout : Nat := 30000

/-- The circuitBreaker object as initialized at process start. -/
def initialBreaker : CircuitBreaker where
  state := .CLOSED
  failureCount := 0
  lastFailureTime := 0

/-- circuitBreaker.onSuccess: reset failure count and close the
breaker. -/
def onSuccess (cb : CircuitBreaker) : CircuitBreaker :=
  { cb with failureCount := 0, state := .CLOSED }

/-- circuitBreaker.onFailure at clock value now: increment the count,
record the failure time, and open the breaker once the count reaches
the threshold. -/
def onFailure (cb : CircuitBreaker) (now : Nat) : CircuitBreaker :=
  let c := cb.failureCount + 1
  { state := if failureThreshold ≤ c then .OPEN else cb.state
    failureCount := c
    lastFailureTime := now }

/-- circuitBreaker.canRequest at clock value now: returns the allow
decision together with the possibly-updated breaker (the OPEN to
HALF_OPEN transition is a side effect of the check). -/
def canRequest (cb : CircuitBreaker) (now : Nat) : Bool × CircuitBreaker :=
  match cb.state with
  | .CLOSED => (true, cb)
  | .OPEN =>
    if resetTimeout < now - cb.lastFailureTime then
      (true, { cb with state := .HALF_OPEN })
    else
      (false, cb)
  | .HALF_OPEN => (true, cb)

/-- The five consecutive onFailure calls considered by the breaker
threshold property, starting from the initial breaker. -/
def cbAfterFiveFailures (t1 t2 t3 t4 t5 : Nat) : CircuitBreaker :=
  onFailure (onFailure (onFailure (onFailure (onFailure initialBreaker t1) t2) t3) t4) t5

/-- Tag removal performed by the external sanitize-html library when
called with no allowed tags and no allowed attributes, modelled as
dropping every character span between an opening angle bracket and the
next closing one.  The second argument tracks whether the scan is
currently inside a tag. -/
def stripTags : List Char → Bool → List Char
  | [], _ => []
  | c :: rest, true => if c = '>' then stripTags rest false else stripTags rest true
  | c :: rest, false => if c = '<' then stripTags rest true else c :: stripTags rest false

/-- sanitizeInput from src/server.js: strings are tag-stripped, trimmed
and truncated to 500 characters; every other value is returned
unchanged. -/
def sanitizeInput (v : JsonVal) : JsonVal :=
  match v with
  | .jstr s => .jstr (String.mk ((trimChars (stripTags s.data false)).take 500))
  | x => x

/-- sanitizeFormData from src/server.js: sanitize every value of the
object. -/
def sanitizeFormData (fd : FormData) : FormData :=
  fd.map (fun kv => (kv.1, sanitizeInput kv.2))

/-- validateProductId from src/server.js applied to the productId
property: requires a truthy string that occurs as a product id in the
catalog. -/
def validateProductId (catalog : Catalog) (v : Option JsonVal) : Bool :=
  match v with
  | some (.jstr s) => s != "" && catalog.any (fun p => p.id == s)
  | _ => false

/-- One entry of the downloaded output ZIP bundle, with its byte
contents. -/
structure ZipEntry where
  entryName : String
  data : List Nat
deriving DecidableEq, Repr

/-- The base64 alphabet. -/
def base64Alphabet : List Char :=
  "ABCDEFGHIJKLMNOPQRSTUVWXYZabcdefghijklmnopqrstuvwxyz0123456789+/".data

/-- Character of the base64 alphabet at a six-bit index. -/
def base64Char (n : Nat) : Char :=
  base64Alphabet.getD n '?'

/-- Standard base64 encoding of a byte list (models
Buffer.toString with the base64 encoding). -/
def base64Encode : List Nat → String
  | [] => ""
  | [b1] =>
    String.mk [base64Char (b1 / 4), base64Char (b1 % 4 * 16)] ++ "=="
  | [b1, b2] =>
    String.mk [base64Char (b1 / 4), base64Char (b1 % 4 * 16 + b2 / 16),
               base64Char (b2 % 16 * 4)] ++ "="
  | b1 :: b2 :: b3 :: rest =>
    String.mk [base64Char (b1 / 4), base64Char (b1 % 4 * 16 + b2 / 16),
               base64Char (b2 % 16 * 4 + b3 / 64), base64Char (b3 % 64)] ++
      base64Encode rest

/-- The image-entry test of the preview and thumbnail routes: entry name
ends in a jpg or jpeg extension. -/
def isImageEntry (e : ZipEntry) : Bool :=
  strEndsWith e.entryName ".jpg" || strEndsWith e.entryName ".jpeg"

/-- One extracted preview image as pushed by the preview route: entry
name plus a base64 data URL of the bytes. -/
structure ImageAsset where
  name : String
  data : String
deriving DecidableEq, Repr

/-- Conversion of a ZIP entry to the image object pushed by the preview
route. -/
def toImageAsset (e : ZipEntry) : ImageAsset :=
  { name := e.entryName, data := "data:image/jpeg;base64," ++ base64Encode e.data }

/-- Nat value of a digit run, as parseInt reads it. -/
def digitsToNat (ds : List Char) : Nat :=
  ds.foldl (fun acc c => acc * 10 + (c.toNat - '0'.toNat)) 0

/-- First match of the page-number pattern (letter p followed by at least
one digit) in a character list, returning the digit run. -/
def firstPageToken : List Char → Option (List Char)
  | [] => none
  | c :: rest =>
    if c = 'p' then
      let ds := rest.takeWhile Char.isDigit
      if ds.isEmpty then firstPageToken rest else some ds
    else
      firstPageToken rest

/-- Page number parsed from an entry name by the preview route sort
comparator; names without a parsable token give zero. -/
def pageNumber (name : String) : Nat :=
  match firstPageToken name.data with
  | none => 0
  | some ds => digitsToNat ds

/-- The page-ordering relation the preview route sorts by. -/
def pageLE (a b : ImageAsset) : Prop :=
  pageNumber a.name ≤ pageNumber b.name

instance : DecidableRel pageLE := fun _ _ => Nat.decLe _ _

/-- Image extraction of the preview route: keep the jpg and jpeg
entries, convert each to a data-URL image object, and sort by parsed
page number (a stable sort, like the JavaScript array sort). -/
def extractPreviewImages (entries : List ZipEntry) : List ImageAsset :=
  List.insertionSort pageLE ((entries.filter isImageEntry).map toImageAsset)

/-- PDF extraction of the download-pdf route: a forEach loop in which the
last entry ending in the pdf extension wins, with a default file name. -/
def extractPdf (entries : List ZipEntry) : Option (List Nat) × String :=
  entries.foldl
    (fun acc e => if strEndsWith e.entryName ".pdf" then (some e.data, e.entryName) else acc)
    (none, "brochure.pdf")

/-- File-name sanitization of the download-pdf route: every character
outside word characters, dot and hyphen becomes an underscore. -/
def sanitizeFileName (s : String) : String :=
  String.mk (s.data.map (fun c =>
    if c.isAlphanum || c = '_' || c = '.' || c = '-' then c else '_'))

/-- The in-memory thumbnail cache backend of src/thumbnailCache.js,
modelled as a partial map from product id to stored data URL. -/
abbrev ThumbCacheMem := String → Option String

/-- The empty in-memory cache. -/
def emptyThumbCache : ThumbCacheMem := fun _ => none

/-- getThumbnail on the in-memory backend: read the map, but return the
cached value only when it is truthy — the source tests if (cached) and
otherwise falls through to return null, so a falsy (empty-string) cached
value reads back as absent. -/
def memGetThumbnail (cache : ThumbCacheMem) (productId : String) : Option String :=
  match cache productId with
  | some cached => if cached != "" then some cached else none
  | none => none

/-- setThumbnail on the in-memory backend: store the data and return it. -/
def memSetThumbnail (cache : ThumbCacheMem) (productId imageData : String) :
    ThumbCacheMem × String :=
  (fun k => if k = productId then some imageData else cache k, imageData)

/-- invalidateThumbnail on the in-memory backend: delete the key and
return true unconditionally. -/
def memInvalidateThumbnail (cache : ThumbCacheMem) (productId : String) :
    ThumbCacheMem × Bool :=
  (fun k => if k = productId then none else cache k, true)

/-- Failure of one remote uProduce call: a timeout (JavaScript error code
ECONNABORTED) or any other transport or HTTP error. -/
inductive RemoteError where
  | timeoutErr
  | transportErr
deriving DecidableEq, Repr

/-- The fields of the job-submission response body that the handlers
read. -/
structure JobData where
  Status : String
  StatusInfo : String
  FriendlyId : String
deriving DecidableEq, Repr

/-- The HTTP responses the three remote-calling routes can produce,
abstracted from transport detail. -/
inductive HttpResp where
  | badRequest (msg : String)
  | notFound (msg : String)
  | unavailable
  | jobIncomplete (status : String) (info : String)
  | thumbFailed (status : String)
  | gatewayTimeout (msg : String)
  | serverError (msg : String)
  | previewOk (jobId : String) (images : List ImageAsset) (pageCount : Nat)
  | pdfOk (fileName : String) (bytes : List Nat)
  | thumbOk (productId : String) (thumbnail : String) (cached : Bool)
deriving DecidableEq, Repr

/-- Error response of the catch block of the preview and download-pdf
routes: a gateway-timeout response for a timeout, a generic server error
otherwise. -/
def remoteErrResp (e : RemoteError) (timeoutMsg errMsg : String) : HttpResp :=
  match e with
  | .timeoutErr => .gatewayTimeout timeoutMsg
  | .transportErr => .serverError errMsg

/-- The POST /api/preview handler of src/server.js.  The two remote calls
are modelled by the submit and download oracle arguments; the returned
pair is the HTTP response together with the circuit breaker as left by
the handler. -/
def previewHandler (catalog : Catalog) (body : FormData) (now : Nat)
    (cb : CircuitBreaker) (submit : Except RemoteError JobData)
    (download : Except RemoteError (List ZipEntry)) : HttpResp × CircuitBreaker :=
  let fd := sanitizeFormData body
  if validateProductId catalog (fdLookup fd "productId") then
    match generateJobTicket catalog fd "Proof" with
    | .error _ => (.serverError "Failed to generate preview", onFailure cb now)
    | .ok _ =>
      let pr := canRequest cb now
      if pr.1 then
        match submit with
        | .error e =>
          (remoteErrResp e "Preview generation timed out" "Failed to generate preview",
           onFailure pr.2 now)
        | .ok jobData =>
          if jobData.Status == "Completed" then
            match download with
            | .error e =>
              (remoteErrResp e "Preview generation timed out" "Failed to generate preview",
               onFailure pr.2 now)
            | .ok entries =>
              let cb2 := onSuccess pr.2
              let images := extractPreviewImages entries
              (.previewOk jobData.FriendlyId images images.length, cb2)
          else
            (.jobIncomplete jobData.Status jobData.StatusInfo, pr.2)
      else
        (.unavailable, pr.2)
  else
    (.badRequest "Invalid product ID", cb)

/-- The POST /api/download-pdf handler of src/server.js, modelled like
the preview handler. -/
def downloadPdfHandler (catalog : Catalog) (body : FormData) (now : Nat)
    (cb : CircuitBreaker) (submit : Except RemoteError JobData)
    (download : Except RemoteError (List ZipEntry)) : HttpResp × CircuitBreaker :=
  let fd := sanitizeFormData body
  if validateProductId catalog (fdLookup fd "productId") then
    match generateJobTicket catalog fd "Print" with
    | .error _ => (.serverError "Failed to generate PDF", onFailure cb now)
    | .ok _ =>
      let pr := canRequest cb now
      if pr.1 then
        match submit with
        | .error e =>
          (remoteErrResp e "PDF generation timed out" "Failed to generate PDF",
           onFailure pr.2 now)
        | .ok jobData =>
          if jobData.Status == "Completed" then
            match download with
            | .error e =>
              (remoteErrResp e "PDF generation timed out" "Failed to generate PDF",
               onFailure pr.2 now)
            | .ok entries =>
              let cb2 := onSuccess pr.2
              match extractPdf entries with
              | (none, _) => (.serverError "No PDF found in output", cb2)
              | (some bytes, fileName) => (.pdfOk (sanitizeFileName fileName) bytes, cb2)
          else
            (.jobIncomplete jobData.Status jobData.StatusInfo, pr.2)
      else
        (.unavailable, pr.2)
  else
    (.badRequest "Invalid product ID", cb)

/-- The default form data the thumbnail route builds from a product: the
productId property plus every variable set to its default when truthy,
else the empty string. -/
def thumbDefaultFormData (product : Product) (productId : String) : FormData :=
  product.variableDefs.foldl
    (fun fd v =>
      fdSet fd v.name
        (match v.defaultValue with
         | some d => if jsTruthy d then d else .jstr ""
         | none => .jstr ""))
    [("productId", JsonVal.jstr productId)]

/-- The GET /api/thumbnail/:productId handler of src/server.js on the
in-memory cache backend.  Returns the response, the breaker as left by
the handler, and the cache as left by the handler. -/
def thumbnailHandler (catalog : Catalog) (productId : String) (now : Nat)
    (cb : CircuitBreaker) (cache : ThumbCacheMem)
    (submit : Except RemoteError JobData)
    (download : Except RemoteError (List ZipEntry)) :
    HttpResp × CircuitBreaker × ThumbCacheMem :=
  match getProductById catalog productId with
  | none => (.notFound "Product not found", cb, cache)
  | some product =>
    if optTruthy product.thumbnail then
      (.thumbOk productId (product.thumbnail.getD "") false, cb, cache)
    else
      let cached := memGetThumbnail cache productId
      if optTruthy cached then
        (.thumbOk productId (cached.getD "") true, cb, cache)
      else
        match generateJobTicket catalog (thumbDefaultFormData product productId) "Proof" with
        | .error _ => (.serverError "Failed to generate thumbnail", onFailure cb now, cache)
        | .ok _ =>
          let pr := canRequest cb now
          if pr.1 then
            match submit with
            | .error e =>
              (remoteErrResp e "Thumbnail generation timed out" "Failed to generate thumbnail",
               onFailure pr.2 now, cache)
            | .ok jobData =>
              if jobData.Status == "Completed" then
                match download with
                | .error e =>
                  (remoteErrResp e "Thumbnail generation timed out"
                     "Failed to generate thumbnail",
                   onFailure pr.2 now, cache)
                | .ok entries =>
                  let cb2 := onSuccess pr.2
                  match entries.find? isImageEntry with
                  | none => (.serverError "No image in job output", cb2, cache)
                  | some entry =>
                    let thumbnailData := "data:image/jpeg;base64," ++ base64Encode entry.data
                    let cache2 := (memSetThumbnail cache productId thumbnailData).1
                    (.thumbOk productId thumbnailData false, cb2, cache2)
              else
                (.thumbFailed jobData.Status, pr.2, cache)
          else
            (.unavailable, pr.2, cache)

/-- Value resolution exactly as the specification words it: the submitted
value if not undefined, else the variable default, else the empty string,
rendered as a string. -/
def specResolveValue (fd : FormData) (v : ProductVariable) : String :=
  match fdLookup fd v.name with
  | some x => jsToString x
  | none =>
    match v.defaultValue with
    | some d => jsToString d
    | none => ""

/-- Date classification exactly as the specification words it: the
variable name contains the substring date (case-insensitive), or the
resolved value matches the numeric date pattern. -/
def specIsDateValue (v : ProductVariable) (value : String) : Bool :=
  isDateName v.name || matchesDateRegex value

/-- Expression formatting exactly as the specification words it: date
values wrapped in hash delimiters, all other values wrapped in double
quotes. -/
def specExpression (v : ProductVariable) (fd : FormData) : String :=
  let value := specResolveValue fd v
  if specIsDateValue v value then "#" ++ value ++ "#" else "\"" ++ value ++ "\""

/-- Expression formatting as the specification claim must be amended to
match the source: date formatting additionally requires the resolved
value to be truthy (defined and non-empty); a falsy resolved value is
always emitted as a pair of double quotes, and a truthy non-date value
is double-quoted raw. -/
def specAmendedExpression (v : ProductVariable) (value : Option JsonVal) : String :=
  match value with
  | none => "\"\""
  | some x =>
    if jsTruthy x then
      if isDateName v.name || matchesDateRegex (jsToString x) then
        "#" ++ jsToString x ++ "#"
      else
        "\"" ++ jsToString x ++ "\""
    else
      "\"\""

/-- Serialization of a Bool field. -/
def serBool (b : Bool) : String := if b then "true" else "false"

/-- Serialization of an optional Nat field. -/
def serOptNat : Option Nat → String
  | none => "-"
  | some n => toString n

/-- Serialization of an optional Int field. -/
def serOptInt : Option Int → String
  | none => "-"
  | some n => toString n

/-- Serialization of an optional String field. -/
def serOptStr : Option String → String
  | none => "-"
  | some s => s

/-- Byte rendering of one customization. -/
def serializeCustomization (c : Customization) : String :=
  "Cust(" ++ c.PlanObjectName ++ ";" ++ c.PlanObjectType ++ ";" ++
    c.PlanObjectExpression ++ ")"

/-- Byte rendering of one data source. -/
def serializeDataSource (d : DataSource) : String :=
  "DS(" ++ serOptInt d.id ++ ";" ++ d.filterType ++ ";" ++ d.filter ++ ")"

/-- Byte rendering of the output block. -/
def serializeOutput (o : OutputConfig) : String :=
  "Out(" ++ String.intercalate ";"
    [o.Format, serBool o.FileNameAutomatic, serBool o.BleedUseDocumentDefinition,
     serOptNat o.BleedTop, serOptNat o.BleedBottom, serOptNat o.BleedLeftOrInside,
     serOptNat o.BleedRightOrOutside, serOptNat o.Resolution, serOptStr o.PdfSettings,
     serOptStr o.PdfCompatibilityLevel, serOptStr o.PdfStandardsCompliance,
     serOptStr o.FlatteningHandlerType, o.MissingFonts, o.MissingAssets,
     o.MissingStyles, o.TextOverflow, o.FileSizeLimitReached] ++ ")"

/-- Byte rendering of a whole job ticket, used to state byte-identity of
two builds. -/
def serializeTicket (t : JobTicket) : String :=
  "Ticket(" ++ String.intercalate ";"
    [t.JobType, serOptStr t.JobPriority, toString t.CampaignId, serBool t.RangeAll,
     toString t.RangeFrom, toString t.RangeTo,
     String.intercalate "," (t.RecipientsDataSources.map serializeDataSource),
     serBool t.UseCampaignAssetSources, t.Media, toString t.PlanId,
     String.intercalate "," (t.Customizations.map serializeCustomization),
     toString t.DocumentId, serBool t.UseCampaignFonts, serializeOutput t.Output] ++ ")"

/-- A product fixture used by the concrete counterexamples: one size, one
plan-bound variable whose name contains date and that has no default. -/
def cexProduct : Product where
  id := "p1"
  campaignId := 10
  planId := 20
  sizes := [{ name := "A4", documentId := 30 }]
  variableDefs := [{ name := "eventDate"
                     planObjectName := some "EventDate"
                     planObjectType := some "Variable"
                     defaultValue := none }]
  thumbnail := none

/-- A one-product catalog fixture. -/
def cexCatalog : Catalog := [cexProduct]

/-- A form-data fixture naming the fixture product and size and
submitting no variable values. -/
def cexFormData : FormData := [("productId", .jstr "p1"), ("pageSize", .jstr "A4")]

/-- The date-bound fixture variable on its own. -/
def cexDateVariable : ProductVariable :=
  { name := "eventDate"
    planObjectName := some "EventDate"
    planObjectType := some "Variable"
    defaultValue := none }

/-- A product fixture whose thumbnail default form data generates a
ticket successfully: a size-selector variable without plan binding whose
default names the size, plus one bound text variable. -/
def thumbProduct : Product where
  id := "p2"
  campaignId := 11
  planId := 21
  sizes := [{ name := "A4", documentId := 31 }]
  variableDefs := [{ name := "pageSize"
                     planObjectName := none
                     planObjectType := none
                     defaultValue := some (.jstr "A4") },
                   { name := "headline"
                     planObjectName := some "Headline"
                     planObjectType := some "ADOR"
                     defaultValue := some (.jstr "Hello") }]
  thumbnail := none

/-- A two-product catalog fixture covering the preview and thumbnail
routes. -/
def c3Catalog : Catalog := [cexProduct, thumbProduct]

/-- A completed job-submission response fixture. -/
def jdCompleted : JobData where
  Status := "Completed"
  StatusInfo := ""
  FriendlyId := "J1"

/-- Whether an Except value is a success; the Bool form lets concrete
instances be discharged by evaluation. -/
def exceptIsOk {ε α : Type} : Except ε α → Bool
  | .ok _ => true
  | .error _ => false

theorem exists_ok_of_isOk {ε α : Type} {x : Except ε α} (h : exceptIsOk x = true) :
    ∃ a, x = .ok a := by
  cases x with
  | error e => simp [exceptIsOk] at h
  | ok a => exact ⟨a, rfl⟩

theorem buildExpression_eq_specAmended (v : ProductVariable) (value : Option JsonVal) :
    buildExpression v value = specAmendedExpression v value := by
  cases value with
  | none =>
    simp [buildExpression, specAmendedExpression, isDateField, optJsTruthy, valueOrEmpty]
  | some x =>
    by_cases hx : jsTruthy x = true
    · simp [buildExpression, specAmendedExpression, isDateField, optJsTruthy, valueOrEmpty,
        jsToStringOpt, hx]
    · simp only [Bool.not_eq_true] at hx
      simp [buildExpression, specAmendedExpression, isDateField, optJsTruthy, valueOrEmpty, hx]

theorem foldl_append_filterMap {α β : Type} (g : α → Option β) (f : List β → α → List β)
    (hf : ∀ acc x, f acc x = acc ++ (g x).toList) :
    ∀ (xs : List α) (acc : List β), xs.foldl f acc = acc ++ xs.filterMap g := by
  intro xs
  induction xs with
  | nil => simp
  | cons x rest ih =>
    intro acc
    rw [List.foldl_cons, hf, ih, List.filterMap_cons]
    cases hx : g x <;> simp

/-- The filterMap form of one customization entry of generateJobTicket. -/
def customizationFor (fd : FormData) (v : ProductVariable) : Option Customization :=
  if optTruthy v.planObjectName && optTruthy v.planObjectType then
    some { PlanObjectName := v.planObjectName.getD ""
           PlanObjectType := v.planObjectType.getD ""
           PlanObjectExpression := buildExpression v (resolveValue fd v) }
  else none

theorem mkCustomizations_eq_filterMap (fd : FormData) (vars : List ProductVariable) :
    mkCustomizations fd vars = vars.filterMap (customizationFor fd) := by
  unfold mkCustomizations
  apply foldl_append_filterMap (customizationFor fd)
  intro acc v
  unfold customizationFor
  by_cases h : (optTruthy v.planObjectName && optTruthy v.planObjectType) = true
  · rw [if_pos h, if_pos h]; simp
  · rw [if_neg h, if_neg h]; simp

theorem canRequest_open (c last now : Nat) :
    canRequest { state := .OPEN, failureCount := c, lastFailureTime := last } now =
      if resetTimeout < now - last then
        (true, { state := .HALF_OPEN, failureCount := c, lastFailureTime := last })
      else
        (false, { state := .OPEN, failureCount := c, lastFailureTime := last }) := rfl

theorem fdLookup_sanitize (body : FormData) (k : String) :
    fdLookup (sanitizeFormData body) k = (fdLookup body k).map sanitizeInput := by
  induction body with
  | nil => rfl
  | cons kv rest ih =>
    obtain ⟨k0, v0⟩ := kv
    simp only [sanitizeFormData, fdLookup, List.map_cons] at ih ⊢
    cases h : (k == k0) <;> simp [List.lookup, h, ih]

theorem sanitized_length (s : String) :
    (String.mk ((trimChars (stripTags s.data false)).take 500)).length ≤ 500 := by
  simp [String.length]

theorem memGetThumbnail_eq_none (cache : ThumbCacheMem) (productId : String)
    (h : optTruthy (cache productId) = false) :
    memGetThumbnail cache productId = none := by
  unfold memGetThumbnail
  cases hc : cache productId with
  | none => rfl
  | some s =>
    rw [hc] at h
    simp only [optTruthy] at h
    simp [h]

/-- C1 counterexample: the claim states that a variable whose name
contains date is classified as a date expression and its resolved value
emitted in hash delimiters; for the fixture variable eventDate with no
submitted value and no default, the resolved value is empty, the
claim-side formatter yields a pair of hashes, but generateJobTicket emits
a pair of double quotes — the source additionally requires the value to
be truthy before using the date form.  Hence the claim as stated is false
at this concrete input. -/
theorem c1_claim_counterexample :
    (∃ tk, generateJobTicket cexCatalog cexFormData "Proof" = .ok tk ∧
       tk.Customizations.map Customization.PlanObjectExpression = ["\"\""]) ∧
    specExpression cexDateVariable cexFormData = "##" ∧
    ("\"\"" : String) ≠ "##" :=
  ⟨⟨_, rfl, rfl⟩, rfl, by decide⟩

/-- C1 amended: for every catalog product and valid size, the
customizations of the generated ticket are exactly those of the variables
with truthy plan-object name and type, each formatted by the amended spec
formatter: the resolved value (submitted if defined, else default) is
emitted in hash delimiters only when it is classified as a date AND is
truthy (defined and non-empty); every other resolved value, including
empty or undefined values of date-named variables, is emitted raw inside
double quotes (falsy values as the empty quoted string). -/
theorem c1_customization_formatting_amended (catalog : Catalog) (fd : FormData)
    (kind : String) (product : Product) (sz : SizeOption)
    (hp : findProductByVal catalog (fdLookup fd "productId") = some product)
    (hsz : findSizeConfig product fd = some sz) :
    ∃ tk, generateJobTicket catalog fd kind = .ok tk ∧
      tk.Customizations = product.variableDefs.filterMap (fun v =>
        if optTruthy v.planObjectName && optTruthy v.planObjectType then
          some { PlanObjectName := v.planObjectName.getD ""
                 PlanObjectType := v.planObjectType.getD ""
                 PlanObjectExpression := specAmendedExpression v (resolveValue fd v) }
        else none) := by
  simp only [generateJobTicket, hp, hsz]
  refine ⟨_, rfl, ?_⟩
  show mkCustomizations fd product.variableDefs = _
  rw [mkCustomizations_eq_filterMap]
  congr 1
  funext v
  unfold customizationFor
  rw [buildExpression_eq_specAmended]

/-- C1 amended witness at the fixture product: the single customization
of the built ticket equals the amended-spec rendering. -/
theorem c1_customization_formatting_amended_witness :
    ∃ tk, generateJobTicket cexCatalog cexFormData "Proof" = .ok tk ∧
      tk.Customizations = cexProduct.variableDefs.filterMap (fun v =>
        if optTruthy v.planObjectName && optTruthy v.planObjectType then
          some { PlanObjectName := v.planObjectName.getD ""
                 PlanObjectType := v.planObjectType.getD ""
                 PlanObjectExpression := specAmendedExpression v (resolveValue cexFormData v) }
        else none) :=
  c1_customization_formatting_amended cexCatalog cexFormData "Proof" cexProduct
    { name := "A4", documentId := 30 } rfl rfl

/-- C2: from the initial closed breaker, five consecutive onFailure calls
open the breaker with count five and last-failure time equal to the fifth
call time; canRequest is false immediately afterwards; whenever
canRequest answers true again, at least the reset timeout has elapsed
since the last failure and the breaker has moved to HALF_OPEN as a side
effect; once strictly more than the reset timeout has elapsed canRequest
answers true; and a single onSuccess resets the count to zero and makes
canRequest true. -/
theorem c2_circuit_breaker_threshold (t1 t2 t3 t4 t5 now2 now3 now4 : Nat)
    (cb : CircuitBreaker)
    (h2 : (canRequest (cbAfterFiveFailures t1 t2 t3 t4 t5) now2).1 = true)
    (h3 : t5 + resetTimeout < now3) :
    (cbAfterFiveFailures t1 t2 t3 t4 t5).state = .OPEN ∧
    (cbAfterFiveFailures t1 t2 t3 t4 t5).failureCount = 5 ∧
    (cbAfterFiveFailures t1 t2 t3 t4 t5).lastFailureTime = t5 ∧
    (canRequest (cbAfterFiveFailures t1 t2 t3 t4 t5) t5).1 = false ∧
    (t5 + resetTimeout ≤ now2 ∧
      (canRequest (cbAfterFiveFailures t1 t2 t3 t4 t5) now2).2.state = .HALF_OPEN) ∧
    (canRequest (cbAfterFiveFailures t1 t2 t3 t4 t5) now3).1 = true ∧
    (onSuccess cb).failureCount = 0 ∧
    (canRequest (onSuccess cb) now4).1 = true := by
  have hs : cbAfterFiveFailures t1 t2 t3 t4 t5 =
      { state := .OPEN, failureCount := 5, lastFailureTime := t5 } := rfl
  have hrt : resetTimeout = 30000 := rfl
  rw [hs] at h2 ⊢
  refine ⟨rfl, rfl, rfl, ?_, ?_, ?_, rfl, rfl⟩
  · rw [canRequest_open, Nat.sub_self, if_neg (by simp [hrt])]
  · rw [canRequest_open] at h2 ⊢
    by_cases hlt : resetTimeout < now2 - t5
    · rw [if_pos hlt]
      rw [hrt] at hlt
      exact ⟨by omega, rfl⟩
    · rw [if_neg hlt] at h2
      exact absurd h2 (by simp)
  · rw [hrt] at h3
    have hlt : resetTimeout < now3 - t5 := by rw [hrt]; omega
    rw [canRequest_open, if_pos hlt]

/-- C2 witness at concrete failure times 10, 20, 30, 40, 50 and probe
times 40000 and 7. -/
theorem c2_circuit_breaker_threshold_witness :
    (cbAfterFiveFailures 10 20 30 40 50).state = .OPEN ∧
    (cbAfterFiveFailures 10 20 30 40 50).failureCount = 5 ∧
    (cbAfterFiveFailures 10 20 30 40 50).lastFailureTime = 50 ∧
    (canRequest (cbAfterFiveFailures 10 20 30 40 50) 50).1 = false ∧
    (50 + resetTimeout ≤ 40000 ∧
      (canRequest (cbAfterFiveFailures 10 20 30 40 50) 40000).2.state = .HALF_OPEN) ∧
    (canRequest (cbAfterFiveFailures 10 20 30 40 50) 40000).1 = true ∧
    (onSuccess initialBreaker).failureCount = 0 ∧
    (canRequest (onSuccess initialBreaker) 7).1 = true :=
  c2_circuit_breaker_threshold 10 20 30 40 50 40000 40000 7 initialBreaker
    (by decide) (by decide)

/-- C3 counterexample: the claim states every remote-call outcome,
including an incomplete job, updates the circuit breaker via onSuccess or
onFailure before the response propagates.  Running the preview handler
with a successful submission whose status is Processing leaves the
breaker exactly as it entered, with failure count still 2 — whereas any
onSuccess application yields count 0 and any onFailure application yields
count 3 (onFailure always sets the count to the old count plus one,
whatever its time argument).  So the incomplete-job outcome updated the
breaker through neither, refuting the claim. -/
theorem c3_claim_counterexample :
    previewHandler cexCatalog cexFormData 1000
        { state := .CLOSED, failureCount := 2, lastFailureTime := 5 }
        (.ok { Status := "Processing", StatusInfo := "info", FriendlyId := "J1" })
        (.ok []) =
      (.jobIncomplete "Processing" "info",
       { state := .CLOSED, failureCount := 2, lastFailureTime := 5 }) ∧
    (onSuccess { state := .CLOSED, failureCount := 2, lastFailureTime := 5 }).failureCount
      = 0 ∧
    (onFailure { state := .CLOSED, failureCount := 2, lastFailureTime := 5 }
        1000).failureCount = 3 ∧
    (2 : Nat) ≠ 0 ∧ (2 : Nat) ≠ 3 := by
  refine ⟨by decide, rfl, rfl, by decide, by decide⟩

/-- C3 amended: on the preview, download-pdf and thumbnail routes, the
remote-call outcomes success (submit and download both succeed),
transport error and timeout each update the circuit breaker — failures
via onFailure and full success via onSuccess, applied to the breaker as
left by the canRequest check — before the handler result is produced;
the incomplete-job outcome (vendor status not Completed), however,
returns its error response with the breaker left exactly as the
canRequest check left it, updating neither way. -/
theorem c3_breaker_update_amended (catalog : Catalog) (body : FormData) (pid : String)
    (now : Nat) (cb : CircuitBreaker) (cache : ThumbCacheMem) (jd jd2 : JobData)
    (entries : List ZipEntry) (e : RemoteError)
    (dl : Except RemoteError (List ZipEntry)) (product : Product)
    (hv : validateProductId catalog (fdLookup (sanitizeFormData body) "productId") = true)
    (ht : exceptIsOk (generateJobTicket catalog (sanitizeFormData body) "Proof") = true)
    (htp : exceptIsOk (generateJobTicket catalog (sanitizeFormData body) "Print") = true)
    (hprod : getProductById catalog pid = some product)
    (hth : optTruthy product.thumbnail = false)
    (hcache : optTruthy (cache pid) = false)
    (htt : exceptIsOk
      (generateJobTicket catalog (thumbDefaultFormData product pid) "Proof") = true)
    (hc : (canRequest cb now).1 = true)
    (hcomp : jd.Status = "Completed")
    (hcomp2 : jd2.Status ≠ "Completed") :
    ((previewHandler catalog body now cb (.error e) dl).2 =
       onFailure (canRequest cb now).2 now) ∧
    ((previewHandler catalog body now cb (.ok jd) (.error e)).2 =
       onFailure (canRequest cb now).2 now) ∧
    ((previewHandler catalog body now cb (.ok jd) (.ok entries)).2 =
       onSuccess (canRequest cb now).2) ∧
    ((previewHandler catalog body now cb (.ok jd2) dl).2 = (canRequest cb now).2) ∧
    ((downloadPdfHandler catalog body now cb (.error e) dl).2 =
       onFailure (canRequest cb now).2 now) ∧
    ((downloadPdfHandler catalog body now cb (.ok jd) (.error e)).2 =
       onFailure (canRequest cb now).2 now) ∧
    ((downloadPdfHandler catalog body now cb (.ok jd) (.ok entries)).2 =
       onSuccess (canRequest cb now).2) ∧
    ((downloadPdfHandler catalog body now cb (.ok jd2) dl).2 = (canRequest cb now).2) ∧
    ((thumbnailHandler catalog pid now cb cache (.error e) dl).2.1 =
       onFailure (canRequest cb now).2 now) ∧
    ((thumbnailHandler catalog pid now cb cache (.ok jd) (.error e)).2.1 =
       onFailure (canRequest cb now).2 now) ∧
    ((thumbnailHandler catalog pid now cb cache (.ok jd) (.ok entries)).2.1 =
       onSuccess (canRequest cb now).2) ∧
    ((thumbnailHandler catalog pid now cb cache (.ok jd2) dl).2.1 =
       (canRequest cb now).2) := by
  obtain ⟨tk, htk⟩ := exists_ok_of_isOk ht
  obtain ⟨tkp, htkp⟩ := exists_ok_of_isOk htp
  obtain ⟨tkt, htkt⟩ := exists_ok_of_isOk htt
  have hget : memGetThumbnail cache pid = none := memGetThumbnail_eq_none cache pid hcache
  have hnone : optTruthy none = false := rfl
  refine ⟨?_, ?_, ?_, ?_, ?_, ?_, ?_, ?_, ?_, ?_, ?_, ?_⟩
  · simp [previewHandler, hv, htk, hc]
  · simp [previewHandler, hv, htk, hc, hcomp]
  · simp [previewHandler, hv, htk, hc, hcomp]
  · simp [previewHandler, hv, htk, hc, hcomp2]
  · simp [downloadPdfHandler, hv, htkp, hc]
  · simp [downloadPdfHandler, hv, htkp, hc, hcomp]
  · rcases hx : extractPdf entries with ⟨ob, nm⟩
    cases ob <;> simp [downloadPdfHandler, hv, htkp, hc, hcomp, hx]
  · simp [downloadPdfHandler, hv, htkp, hc, hcomp2]
  · simp [thumbnailHandler, hprod, hth, hget, hnone, htkt, hc]
  · simp [thumbnailHandler, hprod, hth, hget, hnone, htkt, hc, hcomp]
  · simp only [thumbnailHandler, hprod, hth, hget, hnone, htkt, hc, hcomp]
    simp [hcomp]
    cases entries.find? isImageEntry <;> simp
  · simp [thumbnailHandler, hprod, hth, hget, hnone, htkt, hc, hcomp2]

/-- C3 amended witness on the fixture catalog: preview and download-pdf
exercised with the p1 form, the thumbnail route with product p2 on an
empty cache, at concrete remote outcomes. -/
theorem c3_breaker_update_amended_witness :
    ((previewHandler c3Catalog cexFormData 1000 initialBreaker
        (.error .transportErr) (.ok [])).2 =
       onFailure (canRequest initialBreaker 1000).2 1000) ∧
    ((previewHandler c3Catalog cexFormData 1000 initialBreaker
        (.ok jdCompleted) (.error .transportErr)).2 =
       onFailure (canRequest initialBreaker 1000).2 1000) ∧
    ((previewHandler c3Catalog cexFormData 1000 initialBreaker
        (.ok jdCompleted) (.ok [])).2 = onSuccess (canRequest initialBreaker 1000).2) ∧
    ((previewHandler c3Catalog cexFormData 1000 initialBreaker
        (.ok { Status := "Processing", StatusInfo := "", FriendlyId := "J2" })
        (.ok [])).2 = (canRequest initialBreaker 1000).2) ∧
    ((downloadPdfHandler c3Catalog cexFormData 1000 initialBreaker
        (.error .transportErr) (.ok [])).2 =
       onFailure (canRequest initialBreaker 1000).2 1000) ∧
    ((downloadPdfHandler c3Catalog cexFormData 1000 initialBreaker
        (.ok jdCompleted) (.error .transportErr)).2 =
       onFailure (canRequest initialBreaker 1000).2 1000) ∧
    ((downloadPdfHandler c3Catalog cexFormData 1000 initialBreaker
        (.ok jdCompleted) (.ok [])).2 = onSuccess (canRequest initialBreaker 1000).2) ∧
    ((downloadPdfHandler c3Catalog cexFormData 1000 initialBreaker
        (.ok { Status := "Processing", StatusInfo := "", FriendlyId := "J2" })
        (.ok [])).2 = (canRequest initialBreaker 1000).2) ∧
    ((thumbnailHandler c3Catalog "p2" 1000 initialBreaker emptyThumbCache
        (.error .transportErr) (.ok [])).2.1 =
       onFailure (canRequest initialBreaker 1000).2 1000) ∧
    ((thumbnailHandler c3Catalog "p2" 1000 initialBreaker emptyThumbCache
        (.ok jdCompleted) (.error .transportErr)).2.1 =
       onFailure (canRequest initialBreaker 1000).2 1000) ∧
    ((thumbnailHandler c3Catalog "p2" 1000 initialBreaker emptyThumbCache
        (.ok jdCompleted) (.ok [])).2.1 = onSuccess (canRequest initialBreaker 1000).2) ∧
    ((thumbnailHandler c3Catalog "p2" 1000 initialBreaker emptyThumbCache
        (.ok { Status := "Processing", StatusInfo := "", FriendlyId := "J2" })
        (.ok [])).2.1 = (canRequest initialBreaker 1000).2) :=
  c3_breaker_update_amended c3Catalog cexFormData "p2" 1000 initialBreaker emptyThumbCache
    jdCompleted { Status := "Processing", StatusInfo := "", FriendlyId := "J2" }
    [] .transportErr (.ok []) thumbProduct
    (by decide) (by decide) (by decide) (by decide) rfl rfl (by decide) rfl rfl
    (by decide)

/-- C4 counterexample: the claim states a downloaded bundle with no jpg
or jpeg entry makes preview extraction fail with an error response; but
the preview handler run on a bundle containing only a text entry returns
the success response with an empty image list and page count zero — the
source has no emptiness check on the extracted images.  This proves the
negation of the claim at a concrete input. -/
theorem c4_claim_counterexample :
    previewHandler cexCatalog cexFormData 1000 initialBreaker
        (.ok jdCompleted) (.ok [{ entryName := "readme.txt", data := [] }]) =
      (.previewOk "J1" [] 0, initialBreaker) := by
  decide

/-- C4 amended: for every request reaching the download step whose output
bundle contains no jpg or jpeg entry, the preview handler returns the
success response carrying the empty image list and page count zero (with
the breaker updated through onSuccess); no NoImagesInOutput failure
exists in the code. -/
theorem c4_empty_bundle_amended (catalog : Catalog) (body : FormData) (now : Nat)
    (cb : CircuitBreaker) (jd : JobData) (entries : List ZipEntry)
    (hv : validateProductId catalog (fdLookup (sanitizeFormData body) "productId") = true)
    (ht : exceptIsOk (generateJobTicket catalog (sanitizeFormData body) "Proof") = true)
    (hc : (canRequest cb now).1 = true)
    (hcomp : jd.Status = "Completed")
    (hni : entries.filter isImageEntry = []) :
    previewHandler catalog body now cb (.ok jd) (.ok entries) =
      (.previewOk jd.FriendlyId [] 0, onSuccess (canRequest cb now).2) := by
  obtain ⟨tk, htk⟩ := exists_ok_of_isOk ht
  simp [previewHandler, hv, htk, hc, hcomp, extractPreviewImages, hni]

/-- C4 amended witness at a concrete image-free bundle. -/
theorem c4_empty_bundle_amended_witness :
    previewHandler cexCatalog cexFormData 1000 initialBreaker
        (.ok jdCompleted) (.ok [{ entryName := "out.pdf", data := [3] }]) =
      (.previewOk jdCompleted.FriendlyId [] 0,
       onSuccess (canRequest initialBreaker 1000).2) :=
  c4_empty_bundle_amended cexCatalog cexFormData 1000 initialBreaker jdCompleted
    [{ entryName := "out.pdf", data := [3] }] (by decide) (by decide) rfl rfl (by decide)

/-- C5 counterexample: the claim states every request failing input
validation — including a size name absent from the product — leaves the
circuit breaker unchanged; but a preview request with a valid product and
the unknown size A5 throws inside the try block, and the catch records a
breaker failure: the breaker leaves the handler with failure count 1 and
last-failure time set, different from the entering breaker.  This
refutes the claim at a concrete input. -/
theorem c5_claim_counterexample :
    (previewHandler cexCatalog [("productId", .jstr "p1"), ("pageSize", .jstr "A5")] 100
        initialBreaker (.ok jdCompleted) (.ok [])).2 =
      { state := .CLOSED, failureCount := 1, lastFailureTime := 100 } ∧
    ({ state := .CLOSED, failureCount := 1, lastFailureTime := 100 } : CircuitBreaker) ≠
      initialBreaker := by
  refine ⟨by decide, by decide⟩

/-- C5 amended: an invalid product id is answered with a 400 response
before any remote call on the preview and download-pdf routes, leaving
the breaker untouched, and an unknown product id on the thumbnail route
is answered 404 leaving breaker and cache untouched; but a ticket-build
failure (such as an unknown size with a valid product id), while also
answered before any remote call, is caught by the generic error handler,
which records a circuit-breaker failure via onFailure. -/
theorem c5_validation_amended (catalog : Catalog) (badBody goodBody : FormData)
    (pid : String) (now : Nat) (cb : CircuitBreaker) (cache : ThumbCacheMem)
    (sub : Except RemoteError JobData) (dl : Except RemoteError (List ZipEntry))
    (errP errD : TicketError)
    (hbv : validateProductId catalog
      (fdLookup (sanitizeFormData badBody) "productId") = false)
    (hgv : validateProductId catalog
      (fdLookup (sanitizeFormData goodBody) "productId") = true)
    (hgeP : generateJobTicket catalog (sanitizeFormData goodBody) "Proof" = .error errP)
    (hgeD : generateJobTicket catalog (sanitizeFormData goodBody) "Print" = .error errD)
    (hpn : getProductById catalog pid = none) :
    previewHandler catalog badBody now cb sub dl = (.badRequest "Invalid product ID", cb) ∧
    downloadPdfHandler catalog badBody now cb sub dl =
      (.badRequest "Invalid product ID", cb) ∧
    previewHandler catalog goodBody now cb sub dl =
      (.serverError "Failed to generate preview", onFailure cb now) ∧
    downloadPdfHandler catalog goodBody now cb sub dl =
      (.serverError "Failed to generate PDF", onFailure cb now) ∧
    thumbnailHandler catalog pid now cb cache sub dl =
      (.notFound "Product not found", cb, cache) := by
  refine ⟨?_, ?_, ?_, ?_, ?_⟩
  · simp [previewHandler, hbv]
  · simp [downloadPdfHandler, hbv]
  · simp [previewHandler, hgv, hgeP]
  · simp [downloadPdfHandler, hgv, hgeD]
  · simp [thumbnailHandler, hpn]

/-- C5 amended witness: an unknown product id zz, a known product with
unknown size A5, and an unknown thumbnail product id, on the fixture
catalog. -/
theorem c5_validation_amended_witness :
    previewHandler cexCatalog [("productId", .jstr "zz")] 100 initialBreaker
        (.ok jdCompleted) (.ok []) = (.badRequest "Invalid product ID", initialBreaker) ∧
    downloadPdfHandler cexCatalog [("productId", .jstr "zz")] 100 initialBreaker
        (.ok jdCompleted) (.ok []) = (.badRequest "Invalid product ID", initialBreaker) ∧
    previewHandler cexCatalog [("productId", .jstr "p1"), ("pageSize", .jstr "A5")] 100
        initialBreaker (.ok jdCompleted) (.ok []) =
      (.serverError "Failed to generate preview", onFailure initialBreaker 100) ∧
    downloadPdfHandler cexCatalog [("productId", .jstr "p1"), ("pageSize", .jstr "A5")]
        100 initialBreaker (.ok jdCompleted) (.ok []) =
      (.serverError "Failed to generate PDF", onFailure initialBreaker 100) ∧
    thumbnailHandler cexCatalog "zz" 100 initialBreaker emptyThumbCache
        (.ok jdCompleted) (.ok []) =
      (.notFound "Product not found", initialBreaker, emptyThumbCache) :=
  c5_validation_amended cexCatalog [("productId", .jstr "zz")]
    [("productId", .jstr "p1"), ("pageSize", .jstr "A5")] "zz" 100 initialBreaker
    emptyThumbCache (.ok jdCompleted) (.ok []) (.sizeNotFound "A5") (.sizeNotFound "A5")
    (by decide) (by decide) rfl rfl (by decide)

/-- C6: ticket generation is deterministic: with the ambient clock made
explicit, two builds at arbitrary clock values on identical inputs return
the same value, and for a valid product and size both builds succeed with
byte-identical serialized tickets; the ticket-building code never reads
the clock, so no timestamp, nonce or other volatile field can occur in
the ticket. -/
theorem c6_ticket_deterministic (t1 t2 : Nat) (catalog : Catalog) (fd : FormData)
    (kind : String) (product : Product) (sz : SizeOption)
    (hp : findProductByVal catalog (fdLookup fd "productId") = some product)
    (hsz : findSizeConfig product fd = some sz) :
    generateJobTicketAt t1 catalog fd kind = generateJobTicketAt t2 catalog fd kind ∧
    ∃ tk1 tk2, generateJobTicketAt t1 catalog fd kind = .ok tk1 ∧
      generateJobTicketAt t2 catalog fd kind = .ok tk2 ∧
      serializeTicket tk1 = serializeTicket tk2 := by
  refine ⟨rfl, ?_⟩
  unfold generateJobTicketAt
  simp only [generateJobTicket, hp, hsz]
  exact ⟨_, _, rfl, rfl, rfl⟩

/-- C6 witness at the fixture product with clock values 0 and 1. -/
theorem c6_ticket_deterministic_witness :
    generateJobTicketAt 0 cexCatalog cexFormData "Proof" =
      generateJobTicketAt 1 cexCatalog cexFormData "Proof" ∧
    ∃ tk1 tk2, generateJobTicketAt 0 cexCatalog cexFormData "Proof" = .ok tk1 ∧
      generateJobTicketAt 1 cexCatalog cexFormData "Proof" = .ok tk2 ∧
      serializeTicket tk1 = serializeTicket tk2 :=
  c6_ticket_deterministic 0 1 cexCatalog cexFormData "Proof" cexProduct
    { name := "A4", documentId := 30 } rfl rfl

/-- C7: preview extraction returns the image entries sorted ascending by
the page number parsed from the first p-digits token of the entry name
(entries without such a token count as page zero), as a permutation of
the selected image entries; in particular the bundle p001, p003, p002
comes back ordered p001, p002, p003. -/
theorem c7_image_ordering (entries : List ZipEntry) :
    List.Sorted pageLE (extractPreviewImages entries) ∧
    (extractPreviewImages entries).Perm ((entries.filter isImageEntry).map toImageAsset) ∧
    (extractPreviewImages
       [{ entryName := "p001.jpg", data := [] },
        { entryName := "p003.jpg", data := [] },
        { entryName := "p002.jpg", data := [] }]).map ImageAsset.name =
      ["p001.jpg", "p002.jpg", "p003.jpg"] := by
  haveI : IsTotal ImageAsset pageLE := ⟨fun a b => Nat.le_total _ _⟩
  haveI : IsTrans ImageAsset pageLE := ⟨fun _ _ _ => Nat.le_trans⟩
  exact ⟨List.sorted_insertionSort pageLE _, List.perm_insertionSort pageLE _, by decide⟩

/-- C8: generateJobTicket fails with a product-not-found error whenever
the product lookup misses, and with a size-not-found error whenever the
product is found but the size lookup misses; in both cases the result is
an error, so no ticket and no customizations are produced. -/
theorem c8_ticket_errors (catalog : Catalog) (fd : FormData) (kind : String) :
    (findProductByVal catalog (fdLookup fd "productId") = none →
      generateJobTicket catalog fd kind =
        .error (.productNotFound (jsToStringOpt (fdLookup fd "productId")))) ∧
    (∀ product, findProductByVal catalog (fdLookup fd "productId") = some product →
      findSizeConfig product fd = none →
      generateJobTicket catalog fd kind =
        .error (.sizeNotFound (jsToStringOpt (fdLookup fd "pageSize")))) := by
  constructor
  · intro h
    simp only [generateJobTicket, h]
  · intro p hp hsz
    simp only [generateJobTicket, hp, hsz]

/-- C8 witness: an unknown product id and a known product with an unknown
size. -/
theorem c8_ticket_errors_witness :
    generateJobTicket cexCatalog [("productId", JsonVal.jstr "nope")] "Proof" =
      .error (.productNotFound "nope") ∧
    generateJobTicket cexCatalog
        [("productId", JsonVal.jstr "p1"), ("pageSize", JsonVal.jstr "A5")] "Print" =
      .error (.sizeNotFound "A5") :=
  ⟨(c8_ticket_errors cexCatalog [("productId", JsonVal.jstr "nope")] "Proof").1 rfl,
   (c8_ticket_errors cexCatalog
       [("productId", JsonVal.jstr "p1"), ("pageSize", JsonVal.jstr "A5")] "Print").2
     cexProduct rfl rfl⟩

/-- C9 counterexample: the claim states a set followed by a get of the
same product id returns the stored asset; but getThumbnail tests the
cached value for truthiness and falls through to return null when it is
falsy, so storing the empty string and reading it back yields absent, not
the stored asset.  This refutes the claim at a concrete input. -/
theorem c9_claim_counterexample :
    memGetThumbnail (memSetThumbnail emptyThumbCache "p1" "").1 "p1" = none ∧
    (none : Option String) ≠ some "" := by
  exact ⟨rfl, by decide⟩

/-- C9 amended: on the in-memory cache backend, a set followed by a get
of the same product id returns the stored asset whenever the asset is
non-empty (an empty stored asset reads back as absent, because
getThumbnail returns null for a falsy cached value); an invalidate
followed by a get returns absent; and invalidate returns true
unconditionally — in particular on a never-cached id. -/
theorem c9_thumbnail_cache_ops_amended (cache : ThumbCacheMem) (productId asset : String)
    (h : asset ≠ "") :
    memGetThumbnail (memSetThumbnail cache productId asset).1 productId = some asset ∧
    memGetThumbnail (memInvalidateThumbnail cache productId).1 productId = none ∧
    (memInvalidateThumbnail cache productId).2 = true := by
  refine ⟨?_, ?_, rfl⟩
  · simp [memGetThumbnail, memSetThumbnail, h]
  · simp [memGetThumbnail, memInvalidateThumbnail]

/-- C9 amended witness at a concrete data-URL asset. -/
theorem c9_thumbnail_cache_ops_amended_witness :
    memGetThumbnail
        (memSetThumbnail emptyThumbCache "p1" "data:image/jpeg;base64,AA==").1 "p1" =
      some "data:image/jpeg;base64,AA==" ∧
    memGetThumbnail (memInvalidateThumbnail emptyThumbCache "p1").1 "p1" = none ∧
    (memInvalidateThumbnail emptyThumbCache "p1").2 = true :=
  c9_thumbnail_cache_ops_amended emptyThumbCache "p1" "data:image/jpeg;base64,AA=="
    (by decide)

/-- C10: sanitizeInput maps a string to its tag-stripped, trimmed form
truncated to 500 characters (hence length at most 500) and leaves
non-string values unchanged; consequently every string value read out of
a sanitized request body has length at most 500, and the customization
expression built from such a submitted value embeds it within two
delimiter characters. -/
theorem c10_sanitization (s : String) (n : Int) (b : Bool) (body body2 : FormData)
    (k w w2 : String) (v : ProductVariable)
    (h1 : fdLookup (sanitizeFormData body) k = some (.jstr w))
    (h2 : fdLookup (sanitizeFormData body2) v.name = some (.jstr w2)) :
    sanitizeInput (.jstr s) =
      .jstr (String.mk ((trimChars (stripTags s.data false)).take 500)) ∧
    (String.mk ((trimChars (stripTags s.data false)).take 500)).length ≤ 500 ∧
    sanitizeInput (.jnum n) = .jnum n ∧
    sanitizeInput (.jbool b) = .jbool b ∧
    sanitizeInput .jnull = .jnull ∧
    w.length ≤ 500 ∧
    (buildExpression v (resolveValue (sanitizeFormData body2) v)).length ≤
      w2.length + 2 := by
  have hone : ("#" : String).length = 1 := rfl
  have hquo : ("\"" : String).length = 1 := rfl
  have hlen : ∀ (fd : FormData) (key u : String),
      fdLookup (sanitizeFormData fd) key = some (.jstr u) → u.length ≤ 500 := by
    intro fd key u h
    rw [fdLookup_sanitize] at h
    cases hu : fdLookup fd key with
    | none => rw [hu] at h; simp at h
    | some x =>
      rw [hu] at h
      simp only [Option.map] at h
      cases x with
      | jstr s0 =>
        simp only [sanitizeInput, Option.some.injEq, JsonVal.jstr.injEq] at h
        rw [← h]
        exact sanitized_length s0
      | jnum m => simp [sanitizeInput] at h
      | jbool c => simp [sanitizeInput] at h
      | jnull => simp [sanitizeInput] at h
  refine ⟨rfl, sanitized_length s, rfl, rfl, rfl, hlen body k w h1, ?_⟩
  have hres : resolveValue (sanitizeFormData body2) v = some (.jstr w2) := by
    unfold resolveValue
    rw [h2]
  rw [hres]
  unfold buildExpression
  by_cases hd : (isDateField v (some (.jstr w2)) && optJsTruthy (some (.jstr w2))) = true
  · rw [if_pos hd]
    show ("#" ++ jsToStringOpt (some (.jstr w2)) ++ "#").length ≤ w2.length + 2
    simp only [jsToStringOpt, jsToString]
    rw [String.length_append, String.length_append, hone]
    omega
  · rw [if_neg hd]
    show ("\"" ++ valueOrEmpty (some (.jstr w2)) ++ "\"").length ≤ w2.length + 2
    rw [String.length_append, String.length_append, hquo]
    simp only [valueOrEmpty, jsTruthy, jsToString]
    by_cases hw : (w2 != "") = true
    · rw [if_pos hw]; omega
    · rw [if_neg hw]
      have hz : ("" : String).length = 0 := rfl
      omega

/-- C10 witness: a short submitted string and a date-variable lookup on a
concrete sanitized body. -/
theorem c10_sanitization_witness :
    sanitizeInput (.jstr "hi") =
      .jstr (String.mk ((trimChars (stripTags "hi".data false)).take 500)) ∧
    (String.mk ((trimChars (stripTags "hi".data false)).take 500)).length ≤ 500 ∧
    sanitizeInput (.jnum 4) = .jnum 4 ∧
    sanitizeInput (.jbool true) = .jbool true ∧
    sanitizeInput .jnull = .jnull ∧
    ("hi" : String).length ≤ 500 ∧
    (buildExpression cexDateVariable
        (resolveValue (sanitizeFormData [("eventDate", .jstr "29/01/2026")])
          cexDateVariable)).length ≤ ("29/01/2026" : String).length + 2 :=
  c10_sanitization "hi" 4 true [("name", .jstr "hi")]
    [("eventDate", .jstr "29/01/2026")] "name" "hi" "29/01/2026" cexDateVariable
    (by decide) (by decide)

end XMPieBrochure
